import Mathlib

/-!
Shallow embedding of the change-event synchronization engine of the
`postgres-debezium-kafka-es` repository (Go), and proofs about it.

The embedding follows the Go source:
* `sync/services/sync_service.go` — operation validation, single-document
  writes, bulk buffering, and the retry engine (`RetryService`);
* `sync/consumers` — the Kafka consumer handler (`ConsumeClaim`,
  `processMessage`, `validateMessage`, `mapOperation`);
* `sync/models` — `Category`, `CategoryOperation`, status and operation
  constants, `IsValidOperation`, and `IndexNaming`;
* `sync/utils` — `SyncError` and its error codes.

Modelling conventions: Go `error` values become `Option GoError`
(`none` = nil); wall-clock instants are abstract `Nat` values except for
index naming, where a `GoTime` record of calendar fields models
`time.Time` as consumed by `Format("2006-01")`; external collaborators
(the Elasticsearch client, JSON encoding, the random jitter sample, the
context's cancellation signal) are explicit function parameters; a call
that blocks forever (a goroutine locking a `sync.Mutex` it already
holds) is modelled by an `Option` result of `none`.  Floating-point
arithmetic in the backoff computation is modelled by exact rationals.
-/

namespace DD

/-- Go `error` values that arise in the sync pipeline.  `syncError`
mirrors `utils.SyncError` (code, message, wrapped error, operation,
entity); `contextCanceled` mirrors `ctx.Err()`. -/
inductive GoError where
  | syncError (code : String) (message : String) (err : Option GoError)
      (operation : String) (entity : String)
  | contextCanceled

/-- `utils.NewSyncError` from `sync/utils/errors.go`. -/
def NewSyncError (code : String) (msg : String) (err : Option GoError)
    (operation : String) (entity : String) : GoError :=
  GoError.syncError code msg err operation entity

-- Error-code constants from `sync/utils/errors.go`.
def ErrCodeKafkaDeserialize : String := "SYNC_KAFKA_003"
def ErrCodeESIndex : String := "SYNC_ES_002"
def ErrCodeInvalidPayload : String := "SYNC_DATA_001"
def ErrCodeDataTransform : String := "SYNC_DATA_003"
def ErrCodeRetryExhausted : String := "SYNC_RETRY_001"

/-- `utils.NewESIndexError`. -/
def NewESIndexError (msg : String) (err : Option GoError) : GoError :=
  GoError.syncError ErrCodeESIndex msg err "index" "elasticsearch"

-- Constants from `sync/models/sync.go`.
def SyncStatusSuccess : String := "SUCCESS"
def OperationCreate : String := "CREATE"
def OperationUpdate : String := "UPDATE"
def OperationDelete : String := "DELETE"

/-- `models.IsValidOperation`. -/
def IsValidOperation (op : String) : Bool :=
  op = OperationCreate || op = OperationUpdate || op = OperationDelete

/-- `models.Category` (`sync/models/category.go`).  `time.Time` fields are
abstract instants. -/
structure Category where
  id : String
  name : String
  description : String
  status : Int
  createdAt : Nat
  updatedAt : Nat
  version : Int
  syncStatus : String
  lastSync : Nat
deriving DecidableEq

/-- `models.CategoryOperation`.  The timestamp holds the source event's
millisecond timestamp. -/
structure CategoryOperation where
  operation : String
  payload : Category
  timestamp : Int
deriving DecidableEq

/-! ## Retry engine (`sync/services/retry_service.go` part of
`sync_service.go`): `calculateNextDelay` and `RetryWithBackoff`. -/

/-- `RetryService.calculateNextDelay`, over exact rationals.
`jitterSample` models the `rand.Float64()` draw in `[0, 1)`.  The Go code
computes `jitter := rand.Float64()*0.4 - 0.2`, multiplies the exponential
delay by `1 + jitter`, and caps the result at `maxRetryDelay`. -/
def calculateNextDelay (backoffFactor maxRetryDelay : ℚ) (attempt : Nat)
    (baseDelay : ℚ) (jitterSample : ℚ) : ℚ :=
  let delay := baseDelay * backoffFactor ^ attempt
  let jitter := jitterSample * (2 / 5) - 1 / 5
  let jittered := delay * (1 + jitter)
  if jittered > maxRetryDelay then maxRetryDelay else jittered

/-- Result of a `RetryWithBackoff` run: the returned Go error (`none` =
success) together with how many times the wrapped operation
(`ProcessCategoryOperation`) was invoked. -/
structure RetryOutcome where
  result : Option GoError
  invocations : Nat

/-- The `RetryExhausted` error built at the end of `RetryWithBackoff`:
`NewSyncError(ErrCodeRetryExhausted, "Max retries (n) reached", lastErr,
operation.Operation, "category")`. -/
def mkRetryExhaustedError (maxRetries : Nat) (lastErr : Option GoError)
    (operation : String) : GoError :=
  NewSyncError ErrCodeRetryExhausted
    ("Max retries (" ++ toString maxRetries ++ ") reached")
    lastErr operation "category"

/-- The `for attempt < maxRetries` loop of `RetryService.RetryWithBackoff`.
`processOp k` is the outcome of the `(k+1)`-th invocation of
`ProcessCategoryOperation` (`none` = success); `ctxDone k` tells whether
the enclosing context is observed cancelled in the `select` while waiting
after failed invocation `k`.  The fuel argument `remaining` equals
`maxRetries - attempt` and keeps the recursion structural. -/
def retryLoop (processOp : Nat → Option GoError) (ctxDone : Nat → Bool)
    (maxRetries : Nat) (operation : String) :
    Nat → Nat → Option GoError → RetryOutcome
  | 0, attempt, lastErr =>
      ⟨some (mkRetryExhaustedError maxRetries lastErr operation), attempt⟩
  | remaining + 1, attempt, _ =>
      match processOp attempt with
      | none => ⟨none, attempt + 1⟩
      | some err =>
          if ctxDone attempt then ⟨some GoError.contextCanceled, attempt + 1⟩
          else retryLoop processOp ctxDone maxRetries operation remaining
            (attempt + 1) (some err)

/-- `RetryService.RetryWithBackoff`, starting at `attempt = 0` with no
last error. -/
def RetryWithBackoff (processOp : Nat → Option GoError) (ctxDone : Nat → Bool)
    (maxRetries : Nat) (operation : String) : RetryOutcome :=
  retryLoop processOp ctxDone maxRetries operation maxRetries 0 none

/-! ## Operation validation (`SyncService.validateOperation` /
`validateCategoryFields`). -/

/-- `SyncService.validateCategoryFields`.  Note: it rejects an empty
`Description` as well as an empty `Name`. -/
def validateCategoryFields (category : Category) : Option GoError :=
  if category.name = "" then
    some (NewSyncError ErrCodeInvalidPayload "Missing category name" none
      "VALIDATE" "category")
  else if category.description = "" then
    some (NewSyncError ErrCodeInvalidPayload "Missing category description" none
      "VALIDATE" "category")
  else none

/-- `SyncService.validateOperation`. -/
def validateOperation (operation : CategoryOperation) : Option GoError :=
  if operation.payload.id = "" then
    some (NewSyncError ErrCodeInvalidPayload "Missing category ID" none
      operation.operation "category")
  else if operation.operation = OperationCreate
      ∨ operation.operation = OperationUpdate then
    validateCategoryFields operation.payload
  else none

/-! ## Single-document writes (`SyncService.createCategory` /
`updateCategory`).  The Elasticsearch client is a parameter; each model
returns the Go error together with the document body actually sent. -/

/-- Body of the partial-update request built by `updateCategory`:
`{"doc": category, "doc_as_upsert": true}`. -/
structure UpdateBody where
  doc : Category
  docAsUpsert : Bool

/-- `SyncService.createCategory`: stamps `SyncStatus = SUCCESS` and
`LastSync = time.Now()` on the payload, then calls `esClient.Index` with
the document id and the stamped document. -/
def createCategory (now : Nat) (indexName : String) (category : Category)
    (indexWriter : String → String → Category → Option GoError) :
    Option GoError × Category :=
  let category := { category with syncStatus := SyncStatusSuccess, lastSync := now }
  match indexWriter indexName category.id category with
  | some err => (some (NewESIndexError "Failed to index category" (some err)), category)
  | none => (none, category)

/-- `SyncService.updateCategory`: stamps the payload the same way, wraps
it in a `doc`/`doc_as_upsert` body, and calls `esClient.Update`. -/
def updateCategory (now : Nat) (indexName : String) (category : Category)
    (updateWriter : String → String → UpdateBody → Option GoError) :
    Option GoError × UpdateBody :=
  let category := { category with syncStatus := SyncStatusSuccess, lastSync := now }
  let updateBody : UpdateBody := { doc := category, docAsUpsert := true }
  match updateWriter indexName category.id updateBody with
  | some err => (some (NewESIndexError "Failed to update category" (some err)), updateBody)
  | none => (none, updateBody)

/-! ## Bulk buffer (`SyncService.AddToBulkBuffer` /
`processBulkOperations` / `FlushBulkBuffer`).

The buffer and the `sync.Mutex` guarding it are explicit arguments.  A Go
`sync.Mutex` is not reentrant: `Lock()` on a mutex the calling goroutine
already holds blocks forever.  A result of `none` (at the outer `Option`)
models a call that never returns. -/

/-- One line of the newline-delimited bulk request body: an action
descriptor, a plain document body, or an update body with
`doc_as_upsert`. -/
inductive BulkLine where
  | action (verb : String) (index : String) (id : String)
  | docPayload (doc : Category)
  | updatePayload (doc : Category) (docAsUpsert : Bool)

/-- `SyncService.canBulkOperation`. -/
def canBulkOperation (operation : CategoryOperation) : Bool :=
  IsValidOperation operation.operation

/-- The action verb chosen in the `switch op.Operation` of
`processBulkOperations`; `none` models the `default: continue` branch. -/
def opAction (op : String) : Option String :=
  if op = OperationCreate then some "index"
  else if op = OperationUpdate then some "update"
  else if op = OperationDelete then some "delete"
  else none

/-- Encoding of one buffered operation inside the loop of
`processBulkOperations`: the action line, then (for non-delete
operations) the payload line — an upsert body for updates, the plain
document otherwise.  `enc` models `json.NewEncoder(&buf).Encode`, which
may fail. -/
def encodeBulkOp (enc : BulkLine → Except GoError String) (indexName : String)
    (op : CategoryOperation) : Except GoError (List String) :=
  match opAction op.operation with
  | none => .ok []
  | some verb => do
      let actionLine ← enc (BulkLine.action verb indexName op.payload.id)
      if op.operation ≠ OperationDelete then
        if op.operation = OperationUpdate then
          let payloadLine ← enc (BulkLine.updatePayload op.payload true)
          return [actionLine, payloadLine]
        else
          let payloadLine ← enc (BulkLine.docPayload op.payload)
          return [actionLine, payloadLine]
      else
        return [actionLine]

/-- The encoding loop of `processBulkOperations` over the whole buffer;
the first encoding failure aborts the flush. -/
def encodeBulkBuffer (enc : BulkLine → Except GoError String)
    (indexName : String) : List CategoryOperation → Except GoError (List String)
  | [] => .ok []
  | op :: rest => do
      let lines ← encodeBulkOp enc indexName op
      let more ← encodeBulkBuffer enc indexName rest
      return lines ++ more

/-- `SyncService.processBulkOperations`.  `muLocked` says whether the
calling goroutine already holds `s.mu` when the function executes
`s.mu.Lock()`; in that case the call blocks forever (`none`).
`bulkSubmit` models `esClient.Bulk` on the encoded request.  On success
the buffer is truncated to length zero; on any failure the function
returns with the buffer unchanged. -/
def processBulkOperations (enc : BulkLine → Except GoError String)
    (bulkSubmit : List String → Option GoError) (indexName : String)
    (muLocked : Bool) (bulkBuffer : List CategoryOperation) :
    Option (Option GoError × List CategoryOperation) :=
  if muLocked then none
  else if bulkBuffer.isEmpty then some (none, bulkBuffer)
  else
    match encodeBulkBuffer enc indexName bulkBuffer with
    | .error e => some (some e, bulkBuffer)
    | .ok lines =>
        match bulkSubmit lines with
        | some err =>
            some (some (NewESIndexError "Bulk operation failed" (some err)), bulkBuffer)
        | none => some (none, [])

/-- `SyncService.AddToBulkBuffer`: rejects non-bulkable operations, then
acquires `s.mu`, appends the operation, and — if the buffer has reached
the configured batch size — calls `FlushBulkBuffer` (hence
`processBulkOperations`) while still holding `s.mu`. -/
def AddToBulkBuffer (enc : BulkLine → Except GoError String)
    (bulkSubmit : List String → Option GoError) (indexName : String)
    (batchSize : Nat) (muLocked : Bool) (bulkBuffer : List CategoryOperation)
    (operation : CategoryOperation) :
    Option (Option GoError × List CategoryOperation) :=
  if ¬ canBulkOperation operation then
    some (some (NewSyncError ErrCodeInvalidPayload
      "Operation not supported for bulk processing" none
      operation.operation "category"), bulkBuffer)
  else if muLocked then none
  else
    let buf := bulkBuffer ++ [operation]
    if batchSize ≤ buf.length then
      processBulkOperations enc bulkSubmit indexName true buf
    else some (none, buf)

/-! ## Consumer handler (`consumers.ConsumerHandler`): `mapOperation`,
`validateMessage`, `processMessage`, `ConsumeClaim`. -/

/-- The parsed `payload` of a Debezium change event
(`consumers.DebeziumEvent.Payload`): the `before`/`after` snapshot parse
results (`none` = absent or malformed), the source timestamp in
milliseconds, and the operation code. -/
structure DebeziumPayload where
  before : Option Category
  after : Option Category
  sourceTimestamp : Int
  op : String

/-- The Elasticsearch writer entry points of
`elasticsearch.Repository` that a message may reach. -/
inductive WriterCall where
  | index
  | update
  | delete
  | bulk
deriving DecidableEq

/-- `ConsumerHandler.mapOperation`. -/
def mapOperation (op : String) : String :=
  if op = "c" then "CREATE"
  else if op = "u" then "UPDATE"
  else if op = "d" then "DELETE"
  else "UNKNOWN"

/-- `ConsumerHandler.validateMessage`. -/
def validateMessage (ev : DebeziumPayload) : Option GoError :=
  if ev.sourceTimestamp = 0 then
    some (NewSyncError ErrCodeInvalidPayload "Missing timestamp in event" none
      "VALIDATE" "message")
  else if ev.op = "" then
    some (NewSyncError ErrCodeInvalidPayload "Missing operation in event" none
      "VALIDATE" "message")
  else none

/-- `ConsumerHandler.processMessage`.  `parsedValue` is the result of
`json.Unmarshal` on the raw message (`none` = malformed JSON).
`dispatch` models the downstream
`ProcessCategoryOperation`-plus-retry pipeline: it returns the Go error
and the writer calls it performed.  The returned pair is the function's
error result together with every writer call made while processing the
message. -/
def processMessage (parsedValue : Option DebeziumPayload)
    (dispatch : CategoryOperation → Option GoError × List WriterCall) :
    Option GoError × List WriterCall :=
  match parsedValue with
  | none =>
      (some (NewSyncError ErrCodeKafkaDeserialize "Invalid message format" none
        "DESERIALIZE" "message"), [])
  | some ev =>
      match validateMessage ev with
      | some e => (some e, [])
      | none =>
          let operation := mapOperation ev.op
          if operation = OperationCreate ∨ operation = OperationUpdate then
            match ev.after with
            | none =>
                (some (NewSyncError ErrCodeDataTransform
                  "Failed to unmarshal category" none operation "category"), [])
            | some category =>
                dispatch { operation := operation
                           payload := category
                           timestamp := ev.sourceTimestamp }
          else if operation = OperationDelete then
            match ev.before with
            | none =>
                (some (NewSyncError ErrCodeDataTransform
                  "Failed to unmarshal category" none operation "category"), [])
            | some category =>
                dispatch { operation := operation
                           payload := category
                           timestamp := ev.sourceTimestamp }
          else
            (some (NewSyncError ErrCodeInvalidPayload
              ("Unknown operation: " ++ operation) none operation "category"), [])

/-- A consumed Kafka message as seen by `ConsumeClaim` (topic, partition,
offset, and its parse result standing for the raw bytes). -/
structure ConsumerMessage where
  topic : String
  partition : Int
  offset : Int
  parsedValue : Option DebeziumPayload

/-- The message loop of `ConsumerHandler.ConsumeClaim` over the messages
delivered on one claim, in order.  `process` models
`processMessage` on one message.  Returns the list of messages passed to
`session.MarkMessage` (offset commits), in order: on a processing error
the loop logs and `continue`s — it does not mark the message. -/
def consumeClaim (process : ConsumerMessage → Option GoError) :
    List ConsumerMessage → List ConsumerMessage
  | [] => []
  | msg :: rest =>
      match process msg with
      | some _ => consumeClaim process rest
      | none => msg :: consumeClaim process rest

/-! ## Index naming (`models.IndexNaming`,
`SyncService.getCurrentIndexName`). -/

/-- Calendar fields of a `time.Time` instant, as consumed by
`Format("2006-01")`. -/
structure GoTime where
  year : Nat
  month : Nat
  day : Nat
  hour : Nat
  minute : Nat
  second : Nat

/-- Two-digit zero-padded decimal, as in Go's `"01"` month format. -/
def pad2 (n : Nat) : String :=
  if n < 10 then "0" ++ toString n else toString n

/-- Four-digit zero-padded decimal, as in Go's `"2006"` year format. -/
def pad4 (n : Nat) : String :=
  if n < 10 then "000" ++ toString n
  else if n < 100 then "00" ++ toString n
  else if n < 1000 then "0" ++ toString n
  else toString n

/-- `time.Time.Format("2006-01")`: `yyyy-MM`. -/
def formatYearMonth (t : GoTime) : String :=
  pad4 t.year ++ "-" ++ pad2 t.month

/-- `models.IndexNaming` (`sync/models/index.go`). -/
structure IndexNaming where
  environment : String
  service : String
  entity : String
  date : GoTime

/-- `IndexNaming.GetIndexName`:
`"{environment}-{service}-{entity}-{yyyy-MM}"`. -/
def GetIndexName (naming : IndexNaming) : String :=
  naming.environment ++ "-" ++ naming.service ++ "-" ++ naming.entity ++ "-"
    ++ formatYearMonth naming.date

/-- `IndexNaming.GetAliasName`: `"{environment}-{service}-{entity}"`. -/
def GetAliasName (naming : IndexNaming) : String :=
  naming.environment ++ "-" ++ naming.service ++ "-" ++ naming.entity

/-- `SyncService.getCurrentIndexName`, with the wall clock as a
parameter; the service name is the literal `"digital-discovery"`. -/
def getCurrentIndexName (environment : String) (entity : String)
    (now : GoTime) : String :=
  environment ++ "-" ++ "digital-discovery" ++ "-" ++ entity ++ "-"
    ++ formatYearMonth now

/-! ## Lemmas about the retry loop. -/

/-- The retry loop started at `attempt` with fuel `remaining` performs at
most `remaining` further invocations. -/
theorem retryLoop_invocations_le (p : Nat → Option GoError) (c : Nat → Bool)
    (M : Nat) (o : String) :
    ∀ remaining attempt lastErr,
      (retryLoop p c M o remaining attempt lastErr).invocations
        ≤ attempt + remaining := by
  intro remaining
  induction remaining with
  | zero => intro attempt lastErr; simp [retryLoop]
  | succ r ih =>
      intro attempt lastErr
      simp only [retryLoop]
      cases hp : p attempt with
      | none => simp
      | some e =>
          by_cases hc : c attempt
          · simp [hc]
          · simp only [hc, if_false]
            calc (retryLoop p c M o r (attempt + 1) (some e)).invocations
                ≤ (attempt + 1) + r := ih (attempt + 1) (some e)
              _ = attempt + (r + 1) := by omega

/-- If every invocation from `attempt` up to exhaustion fails and the
context is never cancelled, the loop performs exactly `remaining` more
invocations and returns the `RetryExhausted` error wrapping the error of
the last invocation. -/
theorem retryLoop_all_fail (p : Nat → Option GoError) (M : Nat) (o : String) :
    ∀ remaining attempt lastErr, 1 ≤ remaining →
      (∀ k, attempt ≤ k → k < attempt + remaining → (p k).isSome) →
      retryLoop p (fun _ => false) M o remaining attempt lastErr =
        ⟨some (mkRetryExhaustedError M (p (attempt + remaining - 1)) o),
          attempt + remaining⟩ := by
  intro remaining
  induction remaining with
  | zero => intro attempt lastErr h; omega
  | succ r ih =>
      intro attempt lastErr _ hall
      have hfirst : (p attempt).isSome := hall attempt (le_refl _) (by omega)
      obtain ⟨e, he⟩ := Option.isSome_iff_exists.mp hfirst
      simp only [retryLoop, he, if_false]
      cases r with
      | zero => simp [retryLoop, he]
      | succ s =>
          have step := ih (attempt + 1) (some e) (by omega)
            (fun k hk1 hk2 => hall k (by omega) (by omega))
          have h1 : attempt + 1 + (s + 1) - 1 = attempt + (s + 1 + 1) - 1 := by omega
          have h2 : attempt + 1 + (s + 1) = attempt + (s + 1 + 1) := by omega
          rw [step, h1, h2]
          simp

/-- If invocation `k` is the first to succeed and the context was never
observed cancelled before it, the loop returns success after exactly
`k + 1` invocations. -/
theorem retryLoop_first_success (p : Nat → Option GoError) (c : Nat → Bool)
    (M : Nat) (o : String) :
    ∀ remaining attempt lastErr k, attempt ≤ k → k < attempt + remaining →
      (∀ j, attempt ≤ j → j < k → (p j).isSome ∧ c j = false) →
      p k = none →
      retryLoop p c M o remaining attempt lastErr = ⟨none, k + 1⟩ := by
  intro remaining
  induction remaining with
  | zero => intro attempt lastErr k h1 h2; omega
  | succ r ih =>
      intro attempt lastErr k h1 h2 hbefore hk
      rcases Nat.eq_or_lt_of_le h1 with rfl | hlt
      · simp [retryLoop, hk]
      · have hfail : (p attempt).isSome ∧ c attempt = false :=
          hbefore attempt (le_refl _) hlt
        obtain ⟨e, he⟩ := Option.isSome_iff_exists.mp hfail.1
        simp only [retryLoop, he, hfail.2, Bool.false_eq_true, if_false]
        exact ih (attempt + 1) (some e) k hlt (by omega)
          (fun j hj1 hj2 => hbefore j (by omega) hj2) hk

/-- If invocation `k` fails and the context is observed cancelled during
the following wait — with every earlier invocation failing without a
cancellation — the loop stops right there: it returns the context's
error after exactly `k + 1` invocations. -/
theorem retryLoop_cancelled (p : Nat → Option GoError) (c : Nat → Bool)
    (M : Nat) (o : String) :
    ∀ remaining attempt lastErr k, attempt ≤ k → k < attempt + remaining →
      (∀ j, attempt ≤ j → j < k → (p j).isSome ∧ c j = false) →
      (p k).isSome → c k = true →
      retryLoop p c M o remaining attempt lastErr =
        ⟨some GoError.contextCanceled, k + 1⟩ := by
  intro remaining
  induction remaining with
  | zero => intro attempt lastErr k h1 h2; omega
  | succ r ih =>
      intro attempt lastErr k h1 h2 hbefore hkfail hkcancel
      rcases Nat.eq_or_lt_of_le h1 with rfl | hlt
      · obtain ⟨e, he⟩ := Option.isSome_iff_exists.mp hkfail
        simp [retryLoop, he, hkcancel]
      · have hfail : (p attempt).isSome ∧ c attempt = false :=
          hbefore attempt (le_refl _) hlt
        obtain ⟨e, he⟩ := Option.isSome_iff_exists.mp hfail.1
        simp only [retryLoop, he, hfail.2, Bool.false_eq_true, if_false]
        exact ih (attempt + 1) (some e) k hlt (by omega)
          (fun j hj1 hj2 => hbefore j (by omega) hj2) hkfail hkcancel

/-- C1: with `MaxRetries = n` (`n ≥ 1`) and no cancellation,
`RetryWithBackoff` invokes the wrapped operation at most `n` times; if
all `n` invocations fail it returns the `RetryExhausted` error carrying
the last invocation's error after exactly `n` invocations, and if
invocation `k` is the first to succeed it returns success (`nil`)
immediately, after exactly `k + 1` invocations. -/
theorem retryWithBackoff_bound_exhaustion_success (p : Nat → Option GoError)
    (o : String) (n : Nat) (hn : 1 ≤ n) :
    (RetryWithBackoff p (fun _ => false) n o).invocations ≤ n ∧
    ((∀ k, k < n → (p k).isSome) →
      RetryWithBackoff p (fun _ => false) n o =
        ⟨some (mkRetryExhaustedError n (p (n - 1)) o), n⟩) ∧
    (∀ k, k < n → (∀ j, j < k → (p j).isSome) → p k = none →
      RetryWithBackoff p (fun _ => false) n o = ⟨none, k + 1⟩) := by
  refine ⟨?_, ?_, ?_⟩
  · have h := retryLoop_invocations_le p (fun _ => false) n o n 0 none
    simpa [RetryWithBackoff] using h
  · intro hall
    have h := retryLoop_all_fail p n o n 0 none hn
      (fun k _ hk2 => hall k (by omega))
    simpa [RetryWithBackoff] using h
  · intro k hk hfailed hfirst
    exact retryLoop_first_success p (fun _ => false) n o n 0 none k
      (Nat.zero_le _) (by omega) (fun j _ hj2 => ⟨hfailed j hj2, rfl⟩) hfirst

/-- A sample repository-level error used for concrete runs. -/
def sampleFailure : GoError := NewESIndexError "Failed to index category" none

/-- Witness for C1 at `n = 2` with an operation that always fails. -/
theorem retryWithBackoff_bound_exhaustion_success_witness :
    RetryWithBackoff (fun _ => some sampleFailure) (fun _ => false) 2 "CREATE" =
      ⟨some (mkRetryExhaustedError 2 (some sampleFailure) "CREATE"), 2⟩ :=
  (retryWithBackoff_bound_exhaustion_success (fun _ => some sampleFailure)
    "CREATE" 2 (by decide)).2.1 (fun k _ => rfl)

/-- C8: if the enclosing context is observed cancelled while
`RetryWithBackoff` waits after failed invocation `k` (no earlier
invocation having succeeded or been cancelled), the engine stops
immediately: it returns the context's cancellation error, and the
wrapped operation is invoked exactly `k + 1` times — never again after
the cancellation. -/
theorem retryWithBackoff_cancellation (p : Nat → Option GoError)
    (c : Nat → Bool) (o : String) (n k : Nat) (hk : k < n)
    (hbefore : ∀ j, j < k → (p j).isSome ∧ c j = false)
    (hkfail : (p k).isSome) (hkcancel : c k = true) :
    RetryWithBackoff p c n o = ⟨some GoError.contextCanceled, k + 1⟩ :=
  retryLoop_cancelled p c n o n 0 none k (Nat.zero_le _) (by omega)
    (fun j _ hj2 => hbefore j hj2) hkfail hkcancel

/-- Witness for C8: cancellation observed during the first wait stops the
run after one invocation. -/
theorem retryWithBackoff_cancellation_witness :
    RetryWithBackoff (fun _ => some sampleFailure) (fun _ => true) 3 "UPDATE" =
      ⟨some GoError.contextCanceled, 1⟩ :=
  retryWithBackoff_cancellation (fun _ => some sampleFailure) (fun _ => true)
    "UPDATE" 3 0 (by decide) (fun j hj => absurd hj (Nat.not_lt_zero j)) rfl rfl

/-- C6: for every attempt index, the computed retry delay equals
`min(baseDelay * backoffFactor ^ attempt * jitter, maxRetryDelay)` for
some jitter factor in `[0.8, 1.2]` (determined by the uniform sample in
`[0, 1]`), and in particular never exceeds `maxRetryDelay`. -/
theorem calculateNextDelay_spec (backoffFactor maxRetryDelay baseDelay : ℚ)
    (attempt : Nat) (s : ℚ) (h0 : 0 ≤ s) (h1 : s ≤ 1) :
    ∃ j : ℚ, 4 / 5 ≤ j ∧ j ≤ 6 / 5 ∧
      calculateNextDelay backoffFactor maxRetryDelay attempt baseDelay s =
        min (baseDelay * backoffFactor ^ attempt * j) maxRetryDelay ∧
      calculateNextDelay backoffFactor maxRetryDelay attempt baseDelay s
        ≤ maxRetryDelay := by
  refine ⟨1 + (s * (2 / 5) - 1 / 5), by linarith, by linarith, ?_, ?_⟩
  · simp only [calculateNextDelay]
    split_ifs with h
    · exact (min_eq_right (le_of_lt h)).symm
    · exact (min_eq_left (not_lt.mp h)).symm
  · simp only [calculateNextDelay]
    split_ifs with h
    · exact le_refl _
    · exact not_lt.mp h

/-- Witness for C6 at `backoffFactor = 2`, `maxRetryDelay = 10`,
`baseDelay = 1`, `attempt = 4`, jitter sample `1/2`. -/
theorem calculateNextDelay_spec_witness :
    ∃ j : ℚ, 4 / 5 ≤ j ∧ j ≤ 6 / 5 ∧
      calculateNextDelay 2 10 4 1 (1 / 2) = min (1 * 2 ^ 4 * j) 10 ∧
      calculateNextDelay 2 10 4 1 (1 / 2) ≤ 10 :=
  calculateNextDelay_spec 2 10 1 4 (1 / 2) (by norm_num) (by norm_num)

/-! ## Validation (C2). -/

/-- A Create operation whose payload has a non-empty id and a non-empty
name but an empty (per the data model, optional) description. -/
def createWithoutDescription : CategoryOperation :=
  { operation := OperationCreate
    payload := { id := "c1"
                 name := "Pulsa"
                 description := ""
                 status := 1
                 createdAt := 0
                 updatedAt := 0
                 version := 1
                 syncStatus := ""
                 lastSync := 0 }
    timestamp := 0 }

/-- C2 (code bug): a Create operation with non-empty id and non-empty
name but empty description does not pass validation — `validateOperation`
rejects it with an `InvalidPayload` error for the missing description,
although `models.Category.Validate` documents the description as
optional. -/
theorem validateOperation_rejects_empty_description :
    validateOperation createWithoutDescription =
      some (NewSyncError ErrCodeInvalidPayload "Missing category description"
        none "VALIDATE" "category") := rfl

/-! ## Consumer offset marking (C3). -/

/-- A concrete consumed message (its raw value fails to decode, a
terminal, non-retryable outcome for the message). -/
def sampleMessage : ConsumerMessage :=
  { topic := "digital-discovery.public.categories"
    partition := 0
    offset := 42
    parsedValue := none }

/-- C3 counterexample: a message whose processing ends in a terminal
failure is never marked — `ConsumeClaim` commits no offset for it,
contrary to the claim that failed messages are still acknowledged. -/
theorem consumeClaim_failure_not_marked :
    sampleMessage ∉ consumeClaim (fun _ => some sampleFailure) [sampleMessage] := by
  simp [consumeClaim]

/-- C3 amended: `ConsumeClaim` marks (commits) a message's offset only
after its processing has returned, and it marks exactly the messages
whose processing succeeded, in order; a message whose processing ends in
failure is skipped without being marked. -/
theorem consumeClaim_marks_exactly_successes
    (process : ConsumerMessage → Option GoError)
    (msgs : List ConsumerMessage) :
    consumeClaim process msgs = msgs.filter (fun m => (process m).isNone) := by
  induction msgs with
  | nil => rfl
  | cons m rest ih =>
      cases hp : process m with
      | none => simp [consumeClaim, hp, List.filter_cons, ih]
      | some e => simp [consumeClaim, hp, List.filter_cons, ih]

/-! ## Bulk buffer (C4, C5). -/

/-- An encoder that always succeeds. -/
def encOk : BulkLine → Except GoError String := fun _ => .ok "line"

/-- A bulk submission that always succeeds. -/
def submitOk : List String → Option GoError := fun _ => none

/-- A bulk submission that always fails. -/
def submitFail : List String → Option GoError := fun _ => some sampleFailure

/-- A valid Create operation for the bulk buffer. -/
def sampleCreateOp : CategoryOperation :=
  { operation := OperationCreate
    payload := { id := "c1"
                 name := "Pulsa"
                 description := "Top up"
                 status := 1
                 createdAt := 0
                 updatedAt := 0
                 version := 1
                 syncStatus := ""
                 lastSync := 0 }
    timestamp := 1 }

/-- C4 (code bug): an add that brings the buffer exactly to the
configured batch size never returns.  `AddToBulkBuffer` still holds
`s.mu` when the automatic flush reaches `processBulkOperations`, which
blocks forever acquiring the same non-reentrant mutex — modelled by the
`none` result — even with an encoder and a bulk submission that would
succeed. -/
theorem addToBulkBuffer_autoflush_never_returns :
    AddToBulkBuffer encOk submitOk "prod-digital-discovery-categories-2025-04"
      1 false [] sampleCreateOp = none := rfl

/-- C5: a failed bulk flush — an encoding failure or a failed bulk
submission — returns a single batch-level error with the buffered
operations left in the buffer unchanged; the buffer is cleared exactly
when the bulk submission succeeds (an empty buffer flushes trivially
with no submission). -/
theorem processBulkOperations_failure_atomicity
    (enc : BulkLine → Except GoError String)
    (bulkSubmit : List String → Option GoError) (indexName : String)
    (buf : List CategoryOperation) :
    (buf = [] →
      processBulkOperations enc bulkSubmit indexName false buf = some (none, buf)) ∧
    (∀ e, buf ≠ [] → encodeBulkBuffer enc indexName buf = .error e →
      processBulkOperations enc bulkSubmit indexName false buf = some (some e, buf)) ∧
    (∀ lines err, buf ≠ [] → encodeBulkBuffer enc indexName buf = .ok lines →
      bulkSubmit lines = some err →
      processBulkOperations enc bulkSubmit indexName false buf =
        some (some (NewESIndexError "Bulk operation failed" (some err)), buf)) ∧
    (∀ lines, buf ≠ [] → encodeBulkBuffer enc indexName buf = .ok lines →
      bulkSubmit lines = none →
      processBulkOperations enc bulkSubmit indexName false buf = some (none, [])) := by
  refine ⟨?_, ?_, ?_, ?_⟩
  · intro h; subst h; rfl
  · intro e hne henc
    simp [processBulkOperations, List.isEmpty_iff, hne, henc]
  · intro lines err hne henc hsub
    simp [processBulkOperations, List.isEmpty_iff, hne, henc, hsub]
  · intro lines hne henc hsub
    simp [processBulkOperations, List.isEmpty_iff, hne, henc, hsub]

/-- Witness for C5: a failing bulk submission over a one-element buffer
returns the batch-level error and leaves the buffer unchanged. -/
theorem processBulkOperations_failure_atomicity_witness :
    processBulkOperations encOk submitFail "idx" false [sampleCreateOp] =
      some (some (NewESIndexError "Bulk operation failed" (some sampleFailure)),
        [sampleCreateOp]) :=
  (processBulkOperations_failure_atomicity encOk submitFail "idx"
    [sampleCreateOp]).2.2.1 ["line", "line"] sampleFailure (by simp) rfl rfl

/-! ## Decode rejection (C7). -/

/-- A dispatcher that would perform an index write were it consulted. -/
def indexingDispatch : CategoryOperation → Option GoError × List WriterCall :=
  fun _ => (none, [WriterCall.index])

/-- A parseable envelope with a nonzero timestamp and an empty op code. -/
def eventEmptyOp : DebeziumPayload :=
  { before := none, after := none, sourceTimestamp := 5, op := "" }

/-- C7 counterexample: the op code `""` is outside {c,u,d}, yet decoding
fails with the missing-operation validation error, not the
UnknownOperation error the claim names. -/
theorem processMessage_empty_op_not_unknownOperation :
    (processMessage (some eventEmptyOp) indexingDispatch).1 =
      some (NewSyncError ErrCodeInvalidPayload "Missing operation in event"
        none "VALIDATE" "message") ∧
    (processMessage (some eventEmptyOp) indexingDispatch).1 ≠
      some (NewSyncError ErrCodeInvalidPayload "Unknown operation: UNKNOWN"
        none "UNKNOWN" "category") := by
  refine ⟨rfl, ?_⟩
  intro h
  rw [show (processMessage (some eventEmptyOp) indexingDispatch).1 =
      some (NewSyncError ErrCodeInvalidPayload "Missing operation in event"
        none "VALIDATE" "message") from rfl] at h
  simp [NewSyncError] at h

/-- C7 amended: for every parsed envelope whose op code is outside
{c,u,d}, no index-writer operation is ever invoked, whatever the
downstream dispatcher would do; when the envelope additionally passes
field validation (nonzero source timestamp, non-empty op code) the
result is exactly the fatal UnknownOperation decode error.  An empty op
code (or zero timestamp) instead fails validation with the corresponding
missing-field `InvalidPayload` error, still with no writer call. -/
theorem processMessage_unknown_op (ev : DebeziumPayload)
    (dispatch : CategoryOperation → Option GoError × List WriterCall)
    (hc : ev.op ≠ "c") (hu : ev.op ≠ "u") (hd : ev.op ≠ "d") :
    (processMessage (some ev) dispatch).2 = [] ∧
    (ev.sourceTimestamp ≠ 0 → ev.op ≠ "" →
      processMessage (some ev) dispatch =
        (some (NewSyncError ErrCodeInvalidPayload "Unknown operation: UNKNOWN"
          none "UNKNOWN" "category"), [])) := by
  have hmap : mapOperation ev.op = "UNKNOWN" := by
    simp [mapOperation, hc, hu, hd]
  constructor
  · by_cases hts : ev.sourceTimestamp = 0
    · simp [processMessage, validateMessage, hts]
    · by_cases hop : ev.op = ""
      · simp [processMessage, validateMessage, hts, hop]
      · simp [processMessage, validateMessage, hts, hop, hmap,
          OperationCreate, OperationUpdate, OperationDelete]
  · intro hts hop
    simp [processMessage, validateMessage, hts, hop, hmap,
      OperationCreate, OperationUpdate, OperationDelete]

/-- A parseable envelope with a nonzero timestamp and op code "x". -/
def eventUnknownOp : DebeziumPayload :=
  { before := none, after := none, sourceTimestamp := 5, op := "x" }

/-- Witness for C7 amended, at op code "x". -/
theorem processMessage_unknown_op_witness :
    (processMessage (some eventUnknownOp) indexingDispatch).2 = [] ∧
    processMessage (some eventUnknownOp) indexingDispatch =
      (some (NewSyncError ErrCodeInvalidPayload "Unknown operation: UNKNOWN"
        none "UNKNOWN" "category"), []) := by
  have h := processMessage_unknown_op eventUnknownOp indexingDispatch
    (by decide) (by decide) (by decide)
  exact ⟨h.1, h.2 (by decide) (by decide)⟩

/-! ## Index naming (C9). -/

/-- C9: for environment "prod", service "digital-discovery", entity
"categories" and any instant in April 2025, the index name is exactly
"prod-digital-discovery-categories-2025-04" and the alias is exactly
"prod-digital-discovery-categories"; `getCurrentIndexName` agrees.  The
results depend only on environment, service, entity, and the instant's
year and month. -/
theorem indexNaming_april2025 (t : GoTime) (hy : t.year = 2025)
    (hm : t.month = 4) :
    GetIndexName ⟨"prod", "digital-discovery", "categories", t⟩ =
      "prod-digital-discovery-categories-2025-04" ∧
    GetAliasName ⟨"prod", "digital-discovery", "categories", t⟩ =
      "prod-digital-discovery-categories" ∧
    getCurrentIndexName "prod" "categories" t =
      "prod-digital-discovery-categories-2025-04" := by
  obtain ⟨y, mo, d, hh, mi, s⟩ := t
  dsimp only at hy hm
  subst hy
  subst hm
  refine ⟨?_, rfl, ?_⟩
  · simp only [GetIndexName, formatYearMonth]
    rfl
  · simp only [getCurrentIndexName, formatYearMonth]
    rfl

/-- Witness for C9 at the concrete instant 2025-04-15 10:30:00. -/
theorem indexNaming_april2025_witness :
    GetIndexName ⟨"prod", "digital-discovery", "categories", ⟨2025, 4, 15, 10, 30, 0⟩⟩ =
      "prod-digital-discovery-categories-2025-04" ∧
    GetAliasName ⟨"prod", "digital-discovery", "categories", ⟨2025, 4, 15, 10, 30, 0⟩⟩ =
      "prod-digital-discovery-categories" ∧
    getCurrentIndexName "prod" "categories" ⟨2025, 4, 15, 10, 30, 0⟩ =
      "prod-digital-discovery-categories-2025-04" :=
  indexNaming_april2025 ⟨2025, 4, 15, 10, 30, 0⟩ rfl rfl

/-! ## Write frame conditions (C10). -/

/-- The document body sent by `createCategory` is the incoming payload
with only the sync metadata restamped. -/
theorem createCategory_snd (now : Nat) (indexName : String) (c : Category)
    (w : String → String → Category → Option GoError) :
    (createCategory now indexName c w).2 =
      { c with syncStatus := SyncStatusSuccess, lastSync := now } := by
  simp only [createCategory]
  split <;> rfl

/-- The update body sent by `updateCategory` wraps the same restamped
payload with `doc_as_upsert = true`. -/
theorem updateCategory_snd (now : Nat) (indexName : String) (c : Category)
    (u : String → String → UpdateBody → Option GoError) :
    (updateCategory now indexName c u).2 =
      { doc := { c with syncStatus := SyncStatusSuccess, lastSync := now }
        docAsUpsert := true } := by
  simp only [updateCategory]
  split <;> rfl

/-- C10: every Create or Update write sends a document equal to the
incoming payload except in exactly two fields — `syncStatus` becomes
SUCCESS and `lastSync` becomes the wall-clock time of the write,
regardless of their incoming values; all other payload fields pass
through unchanged (for Update, inside a `doc_as_upsert` body). -/
theorem createUpdate_sync_metadata_frame (now : Nat) (indexName : String)
    (c : Category) (w : String → String → Category → Option GoError)
    (u : String → String → UpdateBody → Option GoError) :
    ((createCategory now indexName c w).2.syncStatus = SyncStatusSuccess ∧
     (createCategory now indexName c w).2.lastSync = now ∧
     (createCategory now indexName c w).2.id = c.id ∧
     (createCategory now indexName c w).2.name = c.name ∧
     (createCategory now indexName c w).2.description = c.description ∧
     (createCategory now indexName c w).2.status = c.status ∧
     (createCategory now indexName c w).2.createdAt = c.createdAt ∧
     (createCategory now indexName c w).2.updatedAt = c.updatedAt ∧
     (createCategory now indexName c w).2.version = c.version) ∧
    ((updateCategory now indexName c u).2.docAsUpsert = true ∧
     (updateCategory now indexName c u).2.doc.syncStatus = SyncStatusSuccess ∧
     (updateCategory now indexName c u).2.doc.lastSync = now ∧
     (updateCategory now indexName c u).2.doc.id = c.id ∧
     (updateCategory now indexName c u).2.doc.name = c.name ∧
     (updateCategory now indexName c u).2.doc.description = c.description ∧
     (updateCategory now indexName c u).2.doc.status = c.status ∧
     (updateCategory now indexName c u).2.doc.createdAt = c.createdAt ∧
     (updateCategory now indexName c u).2.doc.updatedAt = c.updatedAt ∧
     (updateCategory now indexName c u).2.doc.version = c.version) := by
  rw [createCategory_snd, updateCategory_snd]
  exact ⟨⟨rfl, rfl, rfl, rfl, rfl, rfl, rfl, rfl, rfl⟩,
    ⟨rfl, rfl, rfl, rfl, rfl, rfl, rfl, rfl, rfl, rfl⟩⟩

end DD
